import Mathlib

/-!
Shallow embedding of `src/main.py` (RFID Operations GUI Monitor), the parts
relevant to the identifier allocator (`get_next_available_id`, `save_state`,
`load_state`) and the protocol dispatcher (`process_message`, the receive loop
of `handle_client`).

Conventions of the embedding:
* Python `int` ids are `Nat` (they are only ever incremented from 1).
* Python `set` of ids is `Finset ℕ`; Python `dict`s keyed by ip are
  association lists `List (String × _)` (first binding wins, as in a dict
  that never holds duplicate keys).
* Python strings are Lean `String`; the string primitives the source uses
  (`split('|')`, `startswith`, slicing `[k:]`, substring test `in`,
  `str(int)`, `zfill`) are defined below from first principles over
  `List Char` so that everything reduces by `decide`/`rfl`.
* Exceptions are explicit: a computation that can raise returns
  `Except String _` (the error payload names the Python exception); the
  `try/except` blocks of the source become `match` on that value.
* File I/O is a `PersistEnv` flag saying whether the snapshot write
  succeeds, and the written file content is returned as data.
-/

namespace RFIDMonitor

/-! ### String primitives (embeddings of the Python string operations used) -/

/-- Splitting a list of characters on a separator character, keeping empty
pieces, as Python `s.split('|')` does: the result is always nonempty and
`[[]]` on the empty string. -/
def splitChar (sep : Char) : List Char → List (List Char)
  | [] => [[]]
  | c :: cs =>
    if c = sep then [] :: splitChar sep cs
    else
      match splitChar sep cs with
      | [] => [[c]]
      | h :: t => (c :: h) :: t

/-- `pySplit s sep` embeds Python `s.split(sep)` for a one-character
separator. -/
def pySplit (s : String) (sep : Char) : List String :=
  (splitChar sep s.data).map (fun l => ⟨l⟩)

/-- Does the second list start with the first? (The core of Python
`startswith`.) -/
def listStarts : List Char → List Char → Bool
  | [], _ => true
  | _ :: _, [] => false
  | a :: as, b :: bs => a = b && listStarts as bs

/-- `pyStartsWith s pre` embeds Python `s.startswith(pre)`. -/
def pyStartsWith (s pre : String) : Bool :=
  listStarts pre.data s.data

/-- Substring test on character lists (the core of Python `in`). -/
def listContains : List Char → List Char → Bool
  | sub, [] => sub.isEmpty
  | sub, c :: cs => listStarts sub (c :: cs) || listContains sub cs

/-- `pyIn sub s` embeds the Python membership test `sub in s` on strings. -/
def pyIn (sub s : String) : Bool :=
  listContains sub.data s.data

/-- `pyDrop s k` embeds Python slicing `s[k:]`. -/
def pyDrop (s : String) (k : ℕ) : String :=
  ⟨s.data.drop k⟩

/-- The decimal digit character for `d < 10` (`chr(48 + d)`). -/
def digitChar (d : ℕ) : Char :=
  Char.ofNat (48 + d)

/-- Fuel-indexed decimal digit expansion of a natural number; `fuel > n`
makes the recursion on `n / 10` run to completion, so `pyStr` below always
supplies enough fuel.  Embeds Python `str(n)` for nonnegative `n`. -/
def natDigitsAux : ℕ → ℕ → List Char
  | 0, _ => []
  | _fuel + 1, n =>
    if n < 10 then [digitChar n]
    else natDigitsAux _fuel (n / 10) ++ [digitChar (n % 10)]

/-- `pyStr n` embeds Python `str(n)` for a nonnegative integer `n`. -/
def pyStr (n : ℕ) : String :=
  ⟨natDigitsAux (n + 1) n⟩

/-- `zfill s w` embeds Python `s.zfill(w)` for the strings this program
feeds it (decimal numerals, hence no sign character to handle): left-pad
with `'0'` up to width `w`. -/
def zfill (s : String) (w : ℕ) : String :=
  if w ≤ s.length then s
  else ⟨List.replicate (w - s.length) '0' ++ s.data⟩

/-- Decimal value of a digit string (used only in proofs, to show that the
formatted identifier still denotes the allocated number). -/
def pyVal (l : List Char) : ℕ :=
  l.foldl (fun acc c => 10 * acc + (c.toNat - 48)) 0

/-! ### Data model -/

/-- The per-client record kept in `self.clients` (the socket object and the
timestamps are not modelled: only the fields the dispatcher reads/writes). -/
structure ClientInfo where
  type : String
  status : String
  deriving DecidableEq, Repr

/-- One entry of the `self.device_stats` defaultdict. -/
structure DeviceStats where
  in_count : ℕ
  out_count : ℕ
  total : ℕ
  deriving DecidableEq, Repr

/-- The dictionary produced for one RFID operation and pushed onto
`self.operations_queue` as an `('rfid_operation', data)` event (the
wall-clock `timestamp` field is not modelled). -/
structure OperationData where
  device : String
  uid : String
  operation : String
  block8 : String
  block9 : String
  status : String
  deriving DecidableEq, Repr

/-- The mutable state of the `RFIDMonitorGUI` object that the protocol and
allocator code touches.  `opsLog` is the sequence of `rfid_operation`
events put on `operations_queue`, most recent first. -/
structure ServerState where
  next_id : ℕ
  used_ids : Finset ℕ
  clients : List (String × ClientInfo)
  device_stats : List (String × DeviceStats)
  opsLog : List OperationData

/-- Dictionary lookup in `self.clients` (raises `KeyError` when absent; the
caller decides what that means). -/
def lookupClient (cs : List (String × ClientInfo)) (ip : String) : Option ClientInfo :=
  (cs.find? (fun p => p.1 = ip)).map (fun p => p.2)

/-- Dictionary store `self.clients[ip] = v` (replaces the binding if
present, else adds it). -/
def storeClient : List (String × ClientInfo) → String → ClientInfo → List (String × ClientInfo)
  | [], ip, v => [(ip, v)]
  | (k, w) :: rest, ip, v =>
    if k = ip then (ip, v) :: rest else (k, w) :: storeClient rest ip v

/-- defaultdict read `self.device_stats[ip]`: absent keys yield the zero
record. -/
def getStats (ds : List (String × DeviceStats)) (ip : String) : DeviceStats :=
  (((ds.find? (fun p => p.1 = ip)).map (fun p => p.2)).getD ⟨0, 0, 0⟩)

/-- defaultdict store `self.device_stats[ip] = v`. -/
def storeStats : List (String × DeviceStats) → String → DeviceStats → List (String × DeviceStats)
  | [], ip, v => [(ip, v)]
  | (k, w) :: rest, ip, v =>
    if k = ip then (ip, v) :: rest else (k, w) :: storeStats rest ip v

/-! ### Identifier allocator -/

/-- Fuel-indexed version of the scan loop
`while self.next_id in self.used_ids: self.next_id += 1`;
`findFree` below supplies fuel `used.card + 1`, which always suffices
(`findFreeAux_not_mem`). -/
def findFreeAux (used : Finset ℕ) : ℕ → ℕ → ℕ
  | 0, n => n
  | fuel + 1, n => if n ∈ used then findFreeAux used fuel (n + 1) else n

/-- The first value `≥ n` not in `used`: the id the scan loop of
`get_next_available_id` stops at. -/
def findFree (used : Finset ℕ) (n : ℕ) : ℕ :=
  findFreeAux used (used.card + 1) n

/-- The numeric id reserved by one call to `get_next_available_id` from
state `st`. -/
def allocId (st : ServerState) : ℕ :=
  findFree st.used_ids st.next_id

/-- The environment of a persistence attempt: whether the write of
`gui_state.json` succeeds (`ok = true`) or raises (`ok = false`). -/
structure PersistEnv where
  ok : Bool

/-- The snapshot dictionary `save_state` serialises (the wall-clock
`timestamp` field is not modelled).  `used_ids` is `list(self.used_ids)`:
some enumeration of the set; the sorted one is used as its canonical
representative. -/
structure Snapshot where
  next_id : ℕ
  used_ids : List ℕ
  device_stats : List (String × DeviceStats)
  deriving Repr

/-- Outcome of `save_state`: the file content actually written (if the
write succeeded) and whether the `except` branch logged an error. -/
structure SaveResult where
  snapshot : Option Snapshot
  errorLogged : Bool
  deriving Repr

/-- The raw file write inside `save_state`'s `try`: succeeds or raises
according to the environment. -/
def writeSnapshot (st : ServerState) (env : PersistEnv) : Except String Snapshot :=
  if env.ok then
    Except.ok ⟨st.next_id, st.used_ids.sort (· ≤ ·), st.device_stats⟩
  else Except.error "OSError"

/-- `save_state` (main.py:179-191): try to write the snapshot; on any
exception print the error and return normally — the failure is never
propagated to the caller. -/
def save_state (st : ServerState) (env : PersistEnv) : SaveResult :=
  match writeSnapshot st env with
  | Except.ok snap => ⟨some snap, false⟩
  | Except.error _ => ⟨none, true⟩

/-- `load_state` (main.py:165-177): when a snapshot file exists and parses,
overwrite `next_id`, `used_ids` (`set(...)` of the stored list) and
`device_stats`; with no file (`none`) the state is left as initialised. -/
def load_state (st : ServerState) (file : Option Snapshot) : ServerState :=
  match file with
  | none => st
  | some d =>
      { st with
        next_id := d.next_id
        used_ids := d.used_ids.toFinset
        device_stats := d.device_stats }

/-- `get_next_available_id` (main.py:193-200): scan `next_id` forward past
every used id, reserve the first free value, advance `next_id` past it,
persist, and return the value as `str(current_id).zfill(8)`. -/
def get_next_available_id (st : ServerState) (env : PersistEnv) :
    String × ServerState × SaveResult :=
  let current_id := findFree st.used_ids st.next_id
  let st' : ServerState :=
    { st with used_ids := insert current_id st.used_ids, next_id := current_id + 1 }
  (zfill (pyStr current_id) 8, st', save_state st' env)

/-- The numeric ids reserved by `k` successive calls to
`get_next_available_id`, in call order. -/
def allocIds : ServerState → ℕ → List ℕ
  | _, 0 => []
  | st, k + 1 =>
      allocId st :: allocIds (get_next_available_id st ⟨true⟩).2.1 k

/-- The identifier strings returned by `k` successive calls to
`get_next_available_id`, in call order. -/
def allocStrings (st : ServerState) (k : ℕ) : List String :=
  (allocIds st k).map (fun i => zfill (pyStr i) 8)

/-! ### Protocol dispatcher -/

/-- The field-extraction loop of the `RFID_LOG` branch
(main.py:265-274): walk `parts[1:]`, matching `UID:`, `ACTION:`,
`BLOCK8:`, `BLOCK9:` prefixes; a later occurrence overwrites an earlier
one. The accumulator is `(card_uid, action, block8_data, block9_data)`. -/
def extractFields :
    List String → String × String × String × String → String × String × String × String
  | [], acc => acc
  | p :: ps, (u, a, b8, b9) =>
    if pyStartsWith p "UID:" then extractFields ps (pyDrop p 4, a, b8, b9)
    else if pyStartsWith p "ACTION:" then extractFields ps (u, pyDrop p 7, b8, b9)
    else if pyStartsWith p "BLOCK8:" then extractFields ps (u, a, pyDrop p 7, b9)
    else if pyStartsWith p "BLOCK9:" then extractFields ps (u, a, b8, pyDrop p 7)
    else extractFields ps (u, a, b8, b9)

/-- The command token of a frame: `message.split('|')[0]` (the split list
is never empty, so the subscript never raises). -/
def pyCommand (message : String) : String :=
  (pySplit message '|').headD ""

/-- The body of `process_message` (main.py:256-299), i.e. the code inside
its `try`.  Returns the state after all mutations that happened before
the return or raise, and either the reply (`Except.ok`) or the exception
(`Except.error`).  The only raising operations in this body are the two
`self.clients[client_ip]` subscripts, which raise `KeyError` when the ip
has no entry (possible: `restart_server` clears `self.clients` while
sessions are live). -/
def process_message_body (st : ServerState) (message client_ip : String) :
    ServerState × Except String String :=
  let parts := pySplit message '|'
  let command := parts.headD ""
  if command = "READER_WRITER_READY" then
    match lookupClient st.clients client_ip with
    | none => (st, Except.error "KeyError")
    | some ci =>
        let ci' : ClientInfo := { ci with type := "RFID Reader", status := "Ready" }
        ({ st with clients := storeClient st.clients client_ip ci' },
         Except.ok "ACK_READER_WRITER_READY")
  else if command = "RFID_LOG" then
    match extractFields parts.tail ("", "", "", "") with
    | (card_uid, action, block8_data, block9_data) =>
      let stats := getStats st.device_stats client_ip
      let branch : String × DeviceStats :=
        if pyIn "WAREHOUSE_IN" block9_data then
          ("IN", { stats with in_count := stats.in_count + 1 })
        else if pyIn "WAREHOUSE_OUT" block9_data then
          ("OUT", { stats with out_count := stats.out_count + 1 })
        else ((if action = "" then "UNKNOWN" else action), stats)
      let operation_type := branch.1
      let stats' := { branch.2 with total := branch.2.total + 1 }
      let st1 := { st with device_stats := storeStats st.device_stats client_ip stats' }
      match lookupClient st1.clients client_ip with
      | none => (st1, Except.error "KeyError")
      | some ci =>
        let ci' : ClientInfo := { ci with type := "RFID " ++ operation_type ++ " Reader" }
        let st2 := { st1 with clients := storeClient st1.clients client_ip ci' }
        let operation_data : OperationData :=
          { device := client_ip, uid := card_uid, operation := operation_type,
            block8 := block8_data, block9 := block9_data, status := "Success" }
        ({ st2 with opsLog := operation_data :: st2.opsLog }, Except.ok "ACK_LOGGED")
  else if command = "HEARTBEAT" then (st, Except.ok "HEARTBEAT_ACK")
  else (st, Except.ok "ERROR_UNKNOWN_COMMAND")

/-- `process_message` (main.py:256-302): the body wrapped in its
`try/except` — any exception becomes the reply `ERROR_PROCESSING` and the
state keeps whatever mutations happened before the raise. -/
def process_message (st : ServerState) (message client_ip : String) :
    ServerState × String :=
  match process_message_body st message client_ip with
  | (st', Except.ok reply) => (st', reply)
  | (st', Except.error _) => (st', "ERROR_PROCESSING")

/-- The receive loop of `handle_client` (main.py:237-247) applied to the
sequence of (already stripped) frames read from the socket: empty frames
are skipped without a reply; every other frame is dispatched and its
reply sent.  Returns the final state and the replies sent, in order. -/
def handle_client_loop : ServerState → String → List String → ServerState × List String
  | st, _, [] => (st, [])
  | st, client_ip, m :: ms =>
    if m = "" then handle_client_loop st client_ip ms
    else
      let r := process_message st m client_ip
      let rest := handle_client_loop r.1 client_ip ms
      (rest.1, r.2 :: rest.2)

/-! ### Allocator lemmas -/

theorem findFreeAux_ge (u : Finset ℕ) : ∀ fuel n, n ≤ findFreeAux u fuel n := by
  intro fuel
  induction fuel with
  | zero => intro n; simp [findFreeAux]
  | succ fuel ih =>
    intro n
    simp only [findFreeAux]
    by_cases hn : n ∈ u
    · simp only [if_pos hn]
      exact le_trans (Nat.le_succ n) (ih (n + 1))
    · simp [if_neg hn]

theorem findFreeAux_not_mem (u : Finset ℕ) :
    ∀ fuel n, (u.filter (fun m => n ≤ m)).card < fuel → findFreeAux u fuel n ∉ u := by
  intro fuel
  induction fuel with
  | zero => intro n h; exact absurd h (Nat.not_lt_zero _)
  | succ fuel ih =>
    intro n h
    simp only [findFreeAux]
    by_cases hn : n ∈ u
    · simp only [if_pos hn]
      apply ih
      have hsub : u.filter (fun m => n + 1 ≤ m) ⊆ u.filter (fun m => n ≤ m) := by
        intro m hm
        simp only [Finset.mem_filter] at hm ⊢
        exact ⟨hm.1, by omega⟩
      have hmem : n ∈ u.filter (fun m => n ≤ m) :=
        Finset.mem_filter.mpr ⟨hn, le_refl n⟩
      have hnot : n ∉ u.filter (fun m => n + 1 ≤ m) := by
        simp only [Finset.mem_filter, not_and]
        intro _
        omega
      have hss : u.filter (fun m => n + 1 ≤ m) ⊂ u.filter (fun m => n ≤ m) :=
        ⟨hsub, fun hq => hnot (hq hmem)⟩
      have := Finset.card_lt_card hss
      omega
    · simp only [if_neg hn]
      exact hn

theorem findFree_not_mem (u : Finset ℕ) (n : ℕ) : findFree u n ∉ u := by
  apply findFreeAux_not_mem
  have := Finset.card_filter_le u (fun m => n ≤ m)
  omega

theorem findFree_ge (u : Finset ℕ) (n : ℕ) : n ≤ findFree u n :=
  findFreeAux_ge u _ n

theorem allocIds_fresh :
    ∀ k (st : ServerState) i, i ∈ allocIds st k → i ∉ st.used_ids := by
  intro k
  induction k with
  | zero => intro st i h; simp [allocIds] at h
  | succ k ih =>
    intro st i h
    simp only [allocIds, List.mem_cons] at h
    rcases h with h | h
    · subst h
      exact findFree_not_mem _ _
    · intro hmem
      apply ih _ _ h
      simp only [get_next_available_id]
      exact Finset.mem_insert_of_mem hmem

theorem allocIds_nodup : ∀ k (st : ServerState), (allocIds st k).Nodup := by
  intro k
  induction k with
  | zero => intro st; simp [allocIds]
  | succ k ih =>
    intro st
    simp only [allocIds, List.nodup_cons]
    refine ⟨?_, ih _⟩
    intro hmem
    apply allocIds_fresh k _ _ hmem
    simp only [get_next_available_id]
    exact Finset.mem_insert_self _ _

/-! ### Decimal-format lemmas -/

theorem digitChar_toNat (d : ℕ) (hd : d < 10) : (digitChar d).toNat = 48 + d := by
  interval_cases d <;> decide

theorem digitChar_isDigit (d : ℕ) (hd : d < 10) : (digitChar d).isDigit = true := by
  interval_cases d <;> decide

theorem pyVal_append_digit (l : List Char) (c : Char) :
    pyVal (l ++ [c]) = 10 * pyVal l + (c.toNat - 48) := by
  simp [pyVal, List.foldl_append]

theorem pyVal_natDigitsAux : ∀ fuel n, n < fuel → pyVal (natDigitsAux fuel n) = n := by
  intro fuel
  induction fuel with
  | zero => intro n h; omega
  | succ fuel ih =>
    intro n h
    simp only [natDigitsAux]
    by_cases h10 : n < 10
    · rw [if_pos h10]
      have hv : pyVal [digitChar n] = (digitChar n).toNat - 48 := by simp [pyVal]
      rw [hv, digitChar_toNat n h10]
      omega
    · rw [if_neg h10]
      rw [pyVal_append_digit]
      have hfuel : n / 10 < fuel := by
        have := Nat.div_lt_self (by omega : 0 < n) (by norm_num : 1 < 10)
        omega
      rw [ih (n / 10) hfuel, digitChar_toNat (n % 10) (Nat.mod_lt _ (by omega))]
      omega

theorem natDigitsAux_length :
    ∀ fuel n k, n < fuel → 1 ≤ k → n < 10 ^ k → (natDigitsAux fuel n).length ≤ k := by
  intro fuel
  induction fuel with
  | zero => intro n k h; omega
  | succ fuel ih =>
    intro n k hf hk hub
    simp only [natDigitsAux]
    by_cases h10 : n < 10
    · rw [if_pos h10]
      simpa using hk
    · rw [if_neg h10]
      rw [List.length_append, List.length_singleton]
      have hk2 : 2 ≤ k := by
        rcases Nat.lt_or_ge k 2 with hlt | hge
        · exfalso
          have hk1 : k = 1 := by omega
          subst hk1
          rw [pow_one] at hub
          omega
        · exact hge
      have h1 : n / 10 < 10 ^ (k - 1) := by
        rw [Nat.div_lt_iff_lt_mul (by norm_num : (0:ℕ) < 10)]
        calc n < 10 ^ k := hub
          _ = 10 ^ (k - 1) * 10 := by
              rw [← pow_succ]
              congr 1
              omega
      have h2 : n / 10 < fuel := by
        have := Nat.div_lt_self (by omega : 0 < n) (by norm_num : 1 < 10)
        omega
      have := ih (n / 10) (k - 1) h2 (by omega) h1
      omega

theorem natDigitsAux_length_pos (fuel n : ℕ) : 1 ≤ (natDigitsAux (fuel + 1) n).length := by
  simp only [natDigitsAux]
  by_cases h10 : n < 10 <;> simp [h10]

theorem natDigitsAux_digits :
    ∀ fuel n c, c ∈ natDigitsAux fuel n → c.isDigit = true := by
  intro fuel
  induction fuel with
  | zero => intro n c hc; simp [natDigitsAux] at hc
  | succ fuel ih =>
    intro n c hc
    simp only [natDigitsAux] at hc
    by_cases h10 : n < 10
    · rw [if_pos h10] at hc
      simp only [List.mem_singleton] at hc
      subst hc
      exact digitChar_isDigit n h10
    · rw [if_neg h10] at hc
      simp only [List.mem_append, List.mem_singleton] at hc
      rcases hc with hc | hc
      · exact ih _ _ hc
      · subst hc
        exact digitChar_isDigit _ (Nat.mod_lt _ (by omega))

theorem pyVal_cons_zero (l : List Char) : pyVal ('0' :: l) = pyVal l := rfl

theorem pyVal_replicate_zero (k : ℕ) (l : List Char) :
    pyVal (List.replicate k '0' ++ l) = pyVal l := by
  induction k with
  | zero => rfl
  | succ k ih => rw [List.replicate_succ, List.cons_append, pyVal_cons_zero, ih]

theorem pyVal_pyStr (n : ℕ) : pyVal (pyStr n).data = n :=
  pyVal_natDigitsAux (n + 1) n (Nat.lt_succ_self n)

theorem pyVal_zfill_pyStr (n : ℕ) : pyVal (zfill (pyStr n) 8).data = n := by
  unfold zfill
  by_cases h : 8 ≤ (pyStr n).length
  · rw [if_pos h]
    exact pyVal_pyStr n
  · rw [if_neg h]
    show pyVal (List.replicate (8 - (pyStr n).length) '0' ++ (pyStr n).data) = n
    rw [pyVal_replicate_zero]
    exact pyVal_pyStr n

theorem zfill_pyStr_injective : Function.Injective (fun n => zfill (pyStr n) 8) := by
  intro a b h
  have ha := pyVal_zfill_pyStr a
  have hb := pyVal_zfill_pyStr b
  simp only at h
  rw [h] at ha
  omega

/-! ### Claim theorems: allocator -/

/-- C1: no two calls to the allocation operation return the same identifier,
for every starting allocator state and every sequence of calls; and from the
pre-seeded gap state `used_ids = {1,2,4}`, `next_id = 1` the first call
returns the identifier for 3 (the string `"00000003"`), not 4 or 1. -/
theorem alloc_no_duplicates :
    (∀ (st : ServerState) (k : ℕ), (allocStrings st k).Nodup) ∧
    (get_next_available_id ⟨1, {1, 2, 4}, [], [], []⟩ ⟨true⟩).1 = "00000003" := by
  constructor
  · intro st k
    exact (allocIds_nodup k st).map zfill_pyStr_injective
  · decide

/-- C5: one call to `get_next_available_id` never decreases `next_id`, the
returned id was not in `used_ids` before the call and is in `used_ids` after
it, and afterwards `next_id` is strictly greater than the returned id. -/
theorem alloc_invariant (st : ServerState) (env : PersistEnv) :
    st.next_id ≤ ((get_next_available_id st env).2.1).next_id ∧
    allocId st ∉ st.used_ids ∧
    allocId st ∈ ((get_next_available_id st env).2.1).used_ids ∧
    allocId st < ((get_next_available_id st env).2.1).next_id := by
  refine ⟨?_, findFree_not_mem _ _, ?_, ?_⟩
  · show st.next_id ≤ findFree st.used_ids st.next_id + 1
    have := findFree_ge st.used_ids st.next_id
    omega
  · exact Finset.mem_insert_self _ _
  · show findFree st.used_ids st.next_id < findFree st.used_ids st.next_id + 1
    omega

/-- C4: persisting the allocator state with `save_state` and reloading the
written snapshot with `load_state` (into any freshly initialised state)
restores the same `next_id` and the same `used_ids` set, and every id the
reloaded allocator subsequently issues avoids every id recorded as used
(hence everything issued) before the save. -/
theorem state_roundtrip (st stInit : ServerState) :
    (load_state stInit (save_state st ⟨true⟩).snapshot).next_id = st.next_id ∧
    (load_state stInit (save_state st ⟨true⟩).snapshot).used_ids = st.used_ids ∧
    ∀ k i, i ∈ allocIds (load_state stInit (save_state st ⟨true⟩).snapshot) k →
      i ∉ st.used_ids := by
  have hsnap : (save_state st ⟨true⟩).snapshot =
      some ⟨st.next_id, st.used_ids.sort (· ≤ ·), st.device_stats⟩ := rfl
  rw [hsnap]
  have hud : (load_state stInit
      (some ⟨st.next_id, st.used_ids.sort (· ≤ ·), st.device_stats⟩)).used_ids =
      st.used_ids := by
    show (st.used_ids.sort (· ≤ ·)).toFinset = st.used_ids
    exact Finset.sort_toFinset _ _
  refine ⟨rfl, hud, ?_⟩
  intro k i hmem
  have h := allocIds_fresh k _ i hmem
  rw [hud] at h
  exact h

/-- C6: whenever the allocated id is below `10^8`, the string the allocation
operation returns has length exactly 8, consists only of decimal digits, and
is the decimal representation of the id left-padded with `'0'`. -/
theorem alloc_id_format (st : ServerState) (env : PersistEnv)
    (h : allocId st < 10 ^ 8) :
    ((get_next_available_id st env).1).length = 8 ∧
    (∀ c ∈ ((get_next_available_id st env).1).data, c.isDigit = true) ∧
    (get_next_available_id st env).1 =
      ⟨List.replicate (8 - (pyStr (allocId st)).length) '0' ++ (pyStr (allocId st)).data⟩ := by
  have hres : (get_next_available_id st env).1 = zfill (pyStr (allocId st)) 8 := rfl
  have hlen : (pyStr (allocId st)).length ≤ 8 :=
    natDigitsAux_length _ _ 8 (Nat.lt_succ_self _) (by norm_num) h
  have hpos : 1 ≤ (pyStr (allocId st)).length :=
    natDigitsAux_length_pos _ _
  rw [hres]
  unfold zfill
  by_cases hge : 8 ≤ (pyStr (allocId st)).length
  · rw [if_pos hge]
    have h8 : (pyStr (allocId st)).length = 8 := le_antisymm hlen hge
    refine ⟨h8, ?_, ?_⟩
    · intro c hc
      exact natDigitsAux_digits _ _ c hc
    · rw [h8]
      simp
  · rw [if_neg hge]
    refine ⟨?_, ?_, rfl⟩
    · show (List.replicate (8 - (pyStr (allocId st)).length) '0' ++
        (pyStr (allocId st)).data).length = 8
      rw [List.length_append, List.length_replicate]
      have : (pyStr (allocId st)).data.length = (pyStr (allocId st)).length := rfl
      omega
    · intro c hc
      show c.isDigit = true
      have hc' : c ∈ List.replicate (8 - (pyStr (allocId st)).length) '0' ++
          (pyStr (allocId st)).data := hc
      rcases List.mem_append.mp hc' with hz | hd
      · have := List.eq_of_mem_replicate hz
        subst this
        decide
      · exact natDigitsAux_digits _ _ c hd

/-- Witness for C6 at the initial state: the allocated id 1 is below `10^8`
and the returned string has length 8 (it is `"00000001"`). -/
theorem alloc_id_format_witness :
    allocId ⟨1, ∅, [], [], []⟩ < 10 ^ 8 ∧
    ((get_next_available_id ⟨1, ∅, [], [], []⟩ ⟨true⟩).1).length = 8 :=
  ⟨by decide, (alloc_id_format ⟨1, ∅, [], [], []⟩ ⟨true⟩ (by decide)).1⟩

/-- C9: when the snapshot write raises (`env.ok = false`), the allocation
still completes: the returned identifier string and the resulting in-memory
state (`used_ids` extended, `next_id` advanced) are exactly those of a
successful persist, the reserved id is in `used_ids`, nothing is written,
and the failure is logged by `save_state`'s own exception handler instead
of propagating. -/
theorem persist_failure_best_effort (st : ServerState) :
    (get_next_available_id st ⟨false⟩).1 = (get_next_available_id st ⟨true⟩).1 ∧
    (get_next_available_id st ⟨false⟩).2.1 = (get_next_available_id st ⟨true⟩).2.1 ∧
    (get_next_available_id st ⟨false⟩).1 = zfill (pyStr (allocId st)) 8 ∧
    allocId st ∈ ((get_next_available_id st ⟨false⟩).2.1).used_ids ∧
    ((get_next_available_id st ⟨false⟩).2.2).errorLogged = true ∧
    ((get_next_available_id st ⟨false⟩).2.2).snapshot = none := by
  refine ⟨rfl, rfl, rfl, ?_, rfl, rfl⟩
  exact Finset.mem_insert_self _ _

/-! ### Dispatcher lemmas -/

/-- Any frame whose command token is none of the three commands the
dispatcher handles falls through to the final `else`: the reply is
`ERROR_UNKNOWN_COMMAND` and the state is returned untouched. -/
theorem process_message_unknown (st : ServerState) (client_ip message : String)
    (h1 : pyCommand message ≠ "READER_WRITER_READY")
    (h2 : pyCommand message ≠ "RFID_LOG")
    (h3 : pyCommand message ≠ "HEARTBEAT") :
    process_message st message client_ip = (st, "ERROR_UNKNOWN_COMMAND") := by
  unfold pyCommand at h1 h2 h3
  simp only [process_message, process_message_body, if_neg h1, if_neg h2, if_neg h3]

/-! ### Claim theorems: dispatcher -/

/-- C7: a frame whose command token is unrecognized (none of the commands
the dispatcher handles) is answered with exactly `ERROR_UNKNOWN_COMMAND`,
and the allocator state (`next_id`, `used_ids`) and the operation log are
left unchanged (in fact the whole state is). -/
theorem unknown_command_no_effect (st : ServerState) (client_ip message : String)
    (h1 : pyCommand message ≠ "READER_WRITER_READY")
    (h2 : pyCommand message ≠ "RFID_LOG")
    (h3 : pyCommand message ≠ "HEARTBEAT") :
    (process_message st message client_ip).2 = "ERROR_UNKNOWN_COMMAND" ∧
    (process_message st message client_ip).1.next_id = st.next_id ∧
    (process_message st message client_ip).1.used_ids = st.used_ids ∧
    (process_message st message client_ip).1.opsLog = st.opsLog := by
  have h := process_message_unknown st client_ip message h1 h2 h3
  rw [h]
  exact ⟨rfl, rfl, rfl, rfl⟩

/-- Witness for C7: a concrete bogus frame gets `ERROR_UNKNOWN_COMMAND` and
changes nothing. -/
theorem unknown_command_no_effect_witness :
    (process_message ⟨1, ∅, [], [], []⟩ "BOGUS_CMD|X:1" "10.0.0.9").2 =
      "ERROR_UNKNOWN_COMMAND" ∧
    (process_message ⟨1, ∅, [], [], []⟩ "BOGUS_CMD|X:1" "10.0.0.9").1.next_id = 1 ∧
    (process_message ⟨1, ∅, [], [], []⟩ "BOGUS_CMD|X:1" "10.0.0.9").1.used_ids = ∅ ∧
    (process_message ⟨1, ∅, [], [], []⟩ "BOGUS_CMD|X:1" "10.0.0.9").1.opsLog = [] :=
  unknown_command_no_effect ⟨1, ∅, [], [], []⟩ "10.0.0.9" "BOGUS_CMD|X:1"
    (by decide) (by decide) (by decide)

/-- Counterexample to C2 as stated: on the concrete frame
`RFID_DETECTED|UID:ABC123` (command token `RFID_DETECTED`, UID field
present) the dispatcher replies `ERROR_UNKNOWN_COMMAND` — not
`ACK_WRITE_SUCCESS` and not `ACK_WRITE_PARTIAL` — and the allocator state
is untouched: the code has no `RFID_DETECTED` branch at all. -/
theorem rfid_detected_counterexample :
    (process_message ⟨1, {5}, [("10.0.0.1", ⟨"Unknown", "Connected"⟩)], [], []⟩
      "RFID_DETECTED|UID:ABC123" "10.0.0.1").2 = "ERROR_UNKNOWN_COMMAND" ∧
    (process_message ⟨1, {5}, [("10.0.0.1", ⟨"Unknown", "Connected"⟩)], [], []⟩
      "RFID_DETECTED|UID:ABC123" "10.0.0.1").2 ≠ "ACK_WRITE_SUCCESS" ∧
    (process_message ⟨1, {5}, [("10.0.0.1", ⟨"Unknown", "Connected"⟩)], [], []⟩
      "RFID_DETECTED|UID:ABC123" "10.0.0.1").2 ≠ "ACK_WRITE_PARTIAL" ∧
    (process_message ⟨1, {5}, [("10.0.0.1", ⟨"Unknown", "Connected"⟩)], [], []⟩
      "RFID_DETECTED|UID:ABC123" "10.0.0.1").2 ≠ "ERROR_NO_UID" ∧
    (process_message ⟨1, {5}, [("10.0.0.1", ⟨"Unknown", "Connected"⟩)], [], []⟩
      "RFID_DETECTED|UID:ABC123" "10.0.0.1").1.used_ids = {5} ∧
    (process_message ⟨1, {5}, [("10.0.0.1", ⟨"Unknown", "Connected"⟩)], [], []⟩
      "RFID_DETECTED|UID:ABC123" "10.0.0.1").1.next_id = 1 := by
  refine ⟨by decide, by decide, by decide, by decide, ?_, by decide⟩
  decide

/-- C2 as amended: a frame whose command token is `RFID_DETECTED` — with or
without a UID field — is not recognized by the dispatcher: the reply is
`ERROR_UNKNOWN_COMMAND` and no allocation or write is performed (the whole
state, allocator included, is unchanged). -/
theorem rfid_detected_unknown (st : ServerState) (client_ip message : String)
    (h : pyCommand message = "RFID_DETECTED") :
    process_message st message client_ip = (st, "ERROR_UNKNOWN_COMMAND") := by
  apply process_message_unknown <;> rw [h] <;> decide

/-- Witness for amended C2: concrete `RFID_DETECTED` frames, with and
without the UID field, both yield `ERROR_UNKNOWN_COMMAND` with the state
unchanged. -/
theorem rfid_detected_unknown_witness :
    process_message ⟨7, {1, 2}, [], [], []⟩ "RFID_DETECTED|UID:CAFE01" "10.0.0.2" =
      (⟨7, {1, 2}, [], [], []⟩, "ERROR_UNKNOWN_COMMAND") ∧
    process_message ⟨7, {1, 2}, [], [], []⟩ "RFID_DETECTED" "10.0.0.2" =
      (⟨7, {1, 2}, [], [], []⟩, "ERROR_UNKNOWN_COMMAND") :=
  ⟨rfid_detected_unknown ⟨7, {1, 2}, [], [], []⟩ "10.0.0.2" "RFID_DETECTED|UID:CAFE01"
      (by decide),
   rfid_detected_unknown ⟨7, {1, 2}, [], [], []⟩ "10.0.0.2" "RFID_DETECTED" (by decide)⟩

/-- Counterexample to C3 as stated: on the concrete frame `WRITE_SUCCESS`
the session does send a reply — the reply list of the receive loop is
`["ERROR_UNKNOWN_COMMAND"]`, not empty, so the frame is answered rather
than suppressed. -/
theorem suppressed_frames_counterexample :
    (handle_client_loop ⟨1, ∅, [], [], []⟩ "10.0.0.2" ["WRITE_SUCCESS"]).2 =
      ["ERROR_UNKNOWN_COMMAND"] ∧
    (handle_client_loop ⟨1, ∅, [], [], []⟩ "10.0.0.2" ["WRITE_SUCCESS"]).2 ≠ [] := by
  constructor <;> decide

/-- C3 as amended: a frame whose command token is `WRITE_SUCCESS`,
`WRITE_FAILED` or `READ_SUCCESS` is not suppressed: like any other
unrecognized command it is answered with `ERROR_UNKNOWN_COMMAND`, the
state unchanged. -/
theorem subresponse_frames_reply_unknown (st : ServerState) (client_ip message : String)
    (h : pyCommand message = "WRITE_SUCCESS" ∨ pyCommand message = "WRITE_FAILED" ∨
      pyCommand message = "READ_SUCCESS") :
    process_message st message client_ip = (st, "ERROR_UNKNOWN_COMMAND") := by
  rcases h with h | h | h <;> (apply process_message_unknown <;> rw [h] <;> decide)

/-- Witness for amended C3: the three concrete sub-response frames each get
`ERROR_UNKNOWN_COMMAND`. -/
theorem subresponse_frames_reply_unknown_witness :
    process_message ⟨1, ∅, [], [], []⟩ "WRITE_SUCCESS" "10.0.0.3" =
      (⟨1, ∅, [], [], []⟩, "ERROR_UNKNOWN_COMMAND") ∧
    process_message ⟨1, ∅, [], [], []⟩ "WRITE_FAILED" "10.0.0.3" =
      (⟨1, ∅, [], [], []⟩, "ERROR_UNKNOWN_COMMAND") ∧
    process_message ⟨1, ∅, [], [], []⟩ "READ_SUCCESS|DATA:X" "10.0.0.3" =
      (⟨1, ∅, [], [], []⟩, "ERROR_UNKNOWN_COMMAND") :=
  ⟨subresponse_frames_reply_unknown ⟨1, ∅, [], [], []⟩ "10.0.0.3" "WRITE_SUCCESS"
      (Or.inl (by decide)),
   subresponse_frames_reply_unknown ⟨1, ∅, [], [], []⟩ "10.0.0.3" "WRITE_FAILED"
      (Or.inr (Or.inl (by decide))),
   subresponse_frames_reply_unknown ⟨1, ∅, [], [], []⟩ "10.0.0.3" "READ_SUCCESS|DATA:X"
      (Or.inr (Or.inr (by decide)))⟩

/-- C8: an exception raised anywhere in the body of `process_message` is
caught at the dispatch boundary and converted to the reply
`ERROR_PROCESSING` (first conjunct), and the session keeps reading: the
receive loop answers every nonempty frame of the input sequence, however
the individual dispatches went (second conjunct). -/
theorem processing_exception_handled :
    (∀ (st : ServerState) (client_ip message err : String),
        (process_message_body st message client_ip).2 = Except.error err →
        (process_message st message client_ip).2 = "ERROR_PROCESSING") ∧
    (∀ (st : ServerState) (client_ip : String) (msgs : List String),
        (handle_client_loop st client_ip msgs).2.length =
          (msgs.filter (fun m => m ≠ "")).length) := by
  constructor
  · intro st client_ip message err h
    rcases hb : process_message_body st message client_ip with ⟨st', r⟩
    rw [hb] at h
    simp only [process_message, hb]
    cases r with
    | ok v => exact absurd h (by simp)
    | error e => rfl
  · intro st client_ip msgs
    induction msgs generalizing st with
    | nil => simp [handle_client_loop]
    | cons m ms ih =>
      by_cases hm : m = ""
      · subst hm
        simp [handle_client_loop, ih]
      · simp [handle_client_loop, hm, ih]

/-- Witness for C8: with `self.clients` empty (as after `restart_server`
clears it) the `READER_WRITER_READY` branch raises `KeyError`, and the
dispatch boundary turns that into `ERROR_PROCESSING`. -/
theorem processing_exception_handled_witness :
    (process_message ⟨1, ∅, [], [], []⟩ "READER_WRITER_READY" "10.0.0.4").2 =
      "ERROR_PROCESSING" :=
  processing_exception_handled.1 ⟨1, ∅, [], [], []⟩ "10.0.0.4" "READER_WRITER_READY"
    "KeyError" (by rfl)

/-- C10: handling an `RFID_LOG` frame (for any contents of the `UID:`,
`ACTION:`, `BLOCK8:`, `BLOCK9:` fields) always appends one operation
record whose `status` is the literal `"Success"` — the path cannot emit a
partial-failure status — replies `ACK_LOGGED`, and sets the record's
`operation` to `"IN"` when the BLOCK9 value contains the substring
`WAREHOUSE_IN`, else `"OUT"` when it contains `WAREHOUSE_OUT`, and
otherwise to the ACTION value, or `"UNKNOWN"` when that is empty. -/
theorem rfid_log_record (st : ServerState) (client_ip message : String) (ci : ClientInfo)
    (hcmd : pyCommand message = "RFID_LOG")
    (hcli : lookupClient st.clients client_ip = some ci) :
    ∃ d : OperationData,
      ((process_message st message client_ip).1).opsLog = d :: st.opsLog ∧
      (process_message st message client_ip).2 = "ACK_LOGGED" ∧
      d.status = "Success" ∧
      d.uid = (extractFields (pySplit message '|').tail ("", "", "", "")).1 ∧
      d.block8 = (extractFields (pySplit message '|').tail ("", "", "", "")).2.2.1 ∧
      d.block9 = (extractFields (pySplit message '|').tail ("", "", "", "")).2.2.2 ∧
      (pyIn "WAREHOUSE_IN" d.block9 = true → d.operation = "IN") ∧
      (pyIn "WAREHOUSE_IN" d.block9 = false → pyIn "WAREHOUSE_OUT" d.block9 = true →
        d.operation = "OUT") ∧
      (pyIn "WAREHOUSE_IN" d.block9 = false → pyIn "WAREHOUSE_OUT" d.block9 = false →
        d.operation =
          (if (extractFields (pySplit message '|').tail ("", "", "", "")).2.1 = ""
           then "UNKNOWN"
           else (extractFields (pySplit message '|').tail ("", "", "", "")).2.1)) := by
  unfold pyCommand at hcmd
  rcases hef : extractFields (pySplit message '|').tail ("", "", "", "") with ⟨u, a, b8, b9⟩
  simp only [process_message, process_message_body, hcmd, hef, hcli]
  rw [if_neg (by decide : ¬("RFID_LOG" : String) = "READER_WRITER_READY")]
  simp only [if_true]
  by_cases hIn : pyIn "WAREHOUSE_IN" b9 = true
  · simp only [hIn, if_true]
    refine ⟨_, rfl, trivial, rfl, rfl, rfl, rfl, fun _ => rfl, fun hf _ => ?_,
      fun hf _ => ?_⟩
    · rw [hIn] at hf; cases hf
    · rw [hIn] at hf; cases hf
  · rw [Bool.not_eq_true] at hIn
    simp only [hIn, Bool.false_eq_true, if_false]
    by_cases hOut : pyIn "WAREHOUSE_OUT" b9 = true
    · simp only [hOut, if_true]
      refine ⟨_, rfl, trivial, rfl, rfl, rfl, rfl, fun ht => ?_, fun _ _ => rfl,
        fun _ hf => ?_⟩
      · rw [hIn] at ht; cases ht
      · rw [hOut] at hf; cases hf
    · rw [Bool.not_eq_true] at hOut
      simp only [hOut, Bool.false_eq_true, if_false]
      refine ⟨_, rfl, trivial, rfl, rfl, rfl, rfl, fun ht => ?_, fun _ ht => ?_,
        fun _ _ => rfl⟩
      · rw [hIn] at ht; cases ht
      · rw [hOut] at ht; cases ht

/-- Witness for C10 on a concrete `RFID_LOG` frame whose BLOCK9 value
contains `WAREHOUSE_IN`. -/
theorem rfid_log_record_witness :
    ∃ d : OperationData,
      ((process_message ⟨1, ∅, [("10.0.0.1", ⟨"Unknown", "Connected"⟩)], [], []⟩
          "RFID_LOG|UID:AA|ACTION:T|BLOCK8:B8|BLOCK9:WAREHOUSE_IN_D" "10.0.0.1").1).opsLog =
        d :: (⟨1, ∅, [("10.0.0.1", ⟨"Unknown", "Connected"⟩)], [], []⟩ : ServerState).opsLog ∧
      (process_message ⟨1, ∅, [("10.0.0.1", ⟨"Unknown", "Connected"⟩)], [], []⟩
          "RFID_LOG|UID:AA|ACTION:T|BLOCK8:B8|BLOCK9:WAREHOUSE_IN_D" "10.0.0.1").2 =
        "ACK_LOGGED" ∧
      d.status = "Success" ∧
      d.uid = (extractFields (pySplit
          "RFID_LOG|UID:AA|ACTION:T|BLOCK8:B8|BLOCK9:WAREHOUSE_IN_D" '|').tail
          ("", "", "", "")).1 ∧
      d.block8 = (extractFields (pySplit
          "RFID_LOG|UID:AA|ACTION:T|BLOCK8:B8|BLOCK9:WAREHOUSE_IN_D" '|').tail
          ("", "", "", "")).2.2.1 ∧
      d.block9 = (extractFields (pySplit
          "RFID_LOG|UID:AA|ACTION:T|BLOCK8:B8|BLOCK9:WAREHOUSE_IN_D" '|').tail
          ("", "", "", "")).2.2.2 ∧
      (pyIn "WAREHOUSE_IN" d.block9 = true → d.operation = "IN") ∧
      (pyIn "WAREHOUSE_IN" d.block9 = false → pyIn "WAREHOUSE_OUT" d.block9 = true →
        d.operation = "OUT") ∧
      (pyIn "WAREHOUSE_IN" d.block9 = false → pyIn "WAREHOUSE_OUT" d.block9 = false →
        d.operation =
          (if (extractFields (pySplit
              "RFID_LOG|UID:AA|ACTION:T|BLOCK8:B8|BLOCK9:WAREHOUSE_IN_D" '|').tail
              ("", "", "", "")).2.1 = ""
           then "UNKNOWN"
           else (extractFields (pySplit
              "RFID_LOG|UID:AA|ACTION:T|BLOCK8:B8|BLOCK9:WAREHOUSE_IN_D" '|').tail
              ("", "", "", "")).2.1)) :=
  rfid_log_record ⟨1, ∅, [("10.0.0.1", ⟨"Unknown", "Connected"⟩)], [], []⟩ "10.0.0.1"
    "RFID_LOG|UID:AA|ACTION:T|BLOCK8:B8|BLOCK9:WAREHOUSE_IN_D" ⟨"Unknown", "Connected"⟩
    (by decide) (by decide)

end RFIDMonitor
